import Mathlib

/-!
Verification development for the atrace trace-session controller
(src/atrace/src/main.rs and src/atrace/src/cli.rs).

The Rust source is shallowly embedded: pure computations become Lean
functions; kernel-filesystem side effects become an explicit list of
`Event`s produced under an environment (`KernelEnv`) that supplies the
outcome of each probe/write; the zlib streaming codec, which is an
external library, is modelled abstractly (see `CodecSpec`).
-/

/-- Constant `SYSTEM_KERNEL_DEBUG_TRACE` (main.rs line 32). -/
def SYSTEM_KERNEL_DEBUG_TRACE : String := "/sys/kernel/debug/tracing/"

/-- Constant `BUFFER_LEN = 64 * 1024` (main.rs line 33). -/
def BUFFER_LEN : Nat := 64 * 1024

/-- Constant `FILE_LEN = 64 * 1024 * 1024` (main.rs line 34). -/
def FILE_LEN : Nat := 64 * 1024 * 1024

/-- zlib status code `Z_OK` (= 0). -/
def Z_OK : Int := 0

/-- zlib status code `Z_STREAM_END` (= 1). -/
def Z_STREAM_END : Int := 1

/-- Structure `Config` (cli.rs lines 3-19).  `buflen`, `sleepsec`,
`durationsec` are `u32` in the source; claims never exercise overflow, so
they are embedded as `Nat`.  Field `cpu_sched` is read by
`disable_kernel_trace_events` (main.rs lines 283, 289) although cli.rs's
declaration omits it; it is included here so that function can be embedded. -/
structure Config where
  debug_cmdline : String
  overwrite : Bool
  buflen : Nat
  sleepsec : Nat
  durationsec : Nat
  compress : Bool
  uncompress_file : String
  tgid : Bool
  begin_async : Bool
  stop_async : Bool
  dump_async : Bool
  show_category : Bool
  stream : Bool
  funcs : String
  group : List String
  cpu_sched : Bool
deriving Repr, DecidableEq

/-- Local variables of `main` that hold the derived phase flags
(main.rs lines 629-664). -/
structure PhaseFlags where
  begin : Bool
  dump : Bool
  stop : Bool
  trace_async : Bool
  trace_stream : Bool
  overwrite : Bool
deriving Repr, DecidableEq

/-- Derivation of the phase flags in `main` (main.rs lines 629-664):
`begin`, `dump`, `stop` start `true`, `trace_async` and `trace_stream`
start `false`; then the four `if` statements on `config.begin_async`,
`config.stop_async`, `config.dump_async` and `config.stream` run in that
order.  `overwrite` is `config.overwrite`, forced to `true` by the
`begin_async` branch (line 645). -/
def derive_phase_flags (config : Config) : PhaseFlags :=
  -- initial values (lines 631-639)
  let begin0 := true
  let dump0 := true
  let stop0 := true
  let async0 := false
  let stream0 := false
  let ow0 := config.overwrite
  -- if config.begin_async (lines 641-646)
  let async1 := if config.begin_async then true else async0
  let stop1 := if config.begin_async then false else stop0
  let dump1 := if config.begin_async then false else dump0
  let ow1 := if config.begin_async then true else ow0
  -- if config.stop_async (lines 647-650)
  let begin1 := if config.stop_async then false else begin0
  let async2 := if config.stop_async then true else async1
  -- if config.dump_async (lines 651-655)
  let begin2 := if config.dump_async then false else begin1
  let async3 := if config.dump_async then true else async2
  let stop2 := if config.dump_async then false else stop1
  -- if config.stream (lines 661-664)
  let stream1 := if config.stream then true else stream0
  let dump2 := if config.stream then false else dump1
  ⟨begin2, dump2, stop2, async3, stream1, ow1⟩

/-- Configuration with every flag clear, mirroring the cli.rs defaults of a
bare `atrace` invocation (lines 115-149: buflen 1024, durationsec 5,
tgid true, everything else empty/false). -/
def configDefault : Config where
  debug_cmdline := ""
  overwrite := false
  buflen := 1024
  sleepsec := 0
  durationsec := 5
  compress := false
  uncompress_file := ""
  tgid := true
  begin_async := false
  stop_async := false
  dump_async := false
  show_category := false
  stream := false
  funcs := ""
  group := []
  cpu_sched := false


/-- Path concatenation `strcat_for_file_path` (main.rs lines 395-400). -/
def strcat_for_file_path (s : String) : String :=
  SYSTEM_KERNEL_DEBUG_TRACE ++ s

/-- Observable action of the session controller on the outside world.
`write p c` is a `write_string` call on file `p` with payload `c`
(the attempt is recorded whether or not it succeeds); `truncate p` is a
`truncate_file` call (`creat`); `flush` is `io::stdout().flush()`;
`sleepMs` is `thread::sleep`; `printTrace` / `uncompressTrace` are the
two pipeline invocations; `printlnMsg` is a `println!`. -/
inductive Event where
  | write (path content : String)
  | truncate (path : String)
  | flush
  | sleepMs (ms : Nat)
  | printTrace
  | uncompressTrace
  | printlnMsg (msg : String)
deriving Repr, DecidableEq

/-- Environment supplying the outcome of each kernel-filesystem primitive
used by the session controller: success of `write_string` per
(path, content), the `access` probes, `creat` truncation success, the
boolean outcome of `is_traceclock_mode` (whose own content-level
definition is `is_traceclock_mode_core` below), the value of the
`G_TRACE_ABORTED` flag when `main` polls it before dumping, and the
return values of the two pipelines (their internals are embedded
separately as `print_trace_m` / `uncompress_trace_m`). -/
structure KernelEnv where
  writeOk : String → String → Bool
  fileExists : String → Bool
  fileWritable : String → Bool
  truncateOk : String → Bool
  clockIsMode : String → Bool
  aborted : Bool
  printRet : Int
  uncompressRet : Int

/-- Kernel gateway `write_string` at the event level (main.rs lines
352-372): one open/write attempt on `filename`, success given by the
environment.  The byte-level success condition is the separate function
`write_string` below. -/
def write_string_m (env : KernelEnv) (filename str : String) : List Event × Bool :=
  ([Event.write filename str], env.writeOk filename str)

/-- Wrapper `trace_write_string` (main.rs lines 374-376). -/
def trace_write_string_m (env : KernelEnv) (filename str : String) : List Event × Bool :=
  write_string_m env filename str

/-- Gateway `set_kernel_option_enable` (main.rs lines 388-393): writes
`"1"` or `"0"`. -/
def set_kernel_option_enable_m (env : KernelEnv) (filename : String) (enable : Bool) :
    List Event × Bool :=
  trace_write_string_m env filename (if enable then "1" else "0")

/-- Gateway `truncate_file` (main.rs lines 120-127). -/
def truncate_file_m (env : KernelEnv) (path : String) : List Event × Bool :=
  ([Event.truncate path], env.truncateOk path)

/-- Option write `set_trace_overwrite_enable` (main.rs lines 214-216). -/
def set_trace_overwrite_enable_m (env : KernelEnv) (enable : Bool) : List Event × Bool :=
  set_kernel_option_enable_m env (strcat_for_file_path "options/overwrite") enable

/-- Option write `set_tracing_enabled` (main.rs lines 237-239): the
kernel tracing master switch `tracing_on`. -/
def set_tracing_enabled_m (env : KernelEnv) (enable : Bool) : List Event × Bool :=
  set_kernel_option_enable_m env (strcat_for_file_path "tracing_on") enable

/-- Option write `set_trace_recordcmd_enable` (main.rs lines 242-244). -/
def set_trace_recordcmd_enable_m (env : KernelEnv) (enable : Bool) : List Event × Bool :=
  set_kernel_option_enable_m env (strcat_for_file_path "options/record-cmd") enable

/-- Buffer clear `clear_trace` (main.rs lines 247-249); note the source
passes the literal `"trace\0"` (with an embedded NUL for `libc::creat`). -/
def clear_trace_m (env : KernelEnv) : List Event × Bool :=
  truncate_file_m env (strcat_for_file_path "trace\x00")

/-- Option write `set_trace_buffer_size` (main.rs lines 269-273): writes
the decimal rendering of `size` to `buffer_size_kb`. -/
def set_trace_buffer_size_m (env : KernelEnv) (size : Nat) : List Event × Bool :=
  trace_write_string_m env (strcat_for_file_path "buffer_size_kb") (toString size)

/-- Clock selection `set_global_clock_enable` (main.rs lines 155-168):
skips the `trace_clock` write when `is_traceclock_mode` already reports
the requested mode (rewriting the active mode resets the buffer). -/
def set_global_clock_enable_m (env : KernelEnv) (enable : Bool) : List Event × Bool :=
  let mode := if enable then "global" else "local"
  if env.clockIsMode mode then ([], true)
  else trace_write_string_m env (strcat_for_file_path "trace_clock") mode

/-- Option write `set_print_tgid_enable_if_present` (main.rs lines
130-137): returns `true` without writing when the option file does not
exist. -/
def set_print_tgid_enable_if_present_m (env : KernelEnv) (enable : Bool) : List Event × Bool :=
  if env.fileExists (strcat_for_file_path "options/print-tgid") then
    set_kernel_option_enable_m env (strcat_for_file_path "options/print-tgid") enable
  else ([], true)

/-- Tracer configuration `set_kernel_trace_funcs` (main.rs lines 327-349).
With an empty list: writes `current_tracer = "nop"` when writable (the
`set_ftrace_filter` probe's body is commented out, lines 333-336).
Otherwise: `function_graph` plus four funcgraph options and a truncation
of `set_ftrace_filter`; `verify_kernel_trace_funcs` always returns
`true` (lines 319-322). -/
def set_kernel_trace_funcs_m (env : KernelEnv) (funcs : String) : List Event × Bool :=
  if funcs = "" then
    let r1 :=
      if env.fileWritable (strcat_for_file_path "current_tracer") then
        trace_write_string_m env (strcat_for_file_path "current_tracer") "nop"
      else ([], true)
    (r1.1, r1.2)
  else
    let r1 := trace_write_string_m env (strcat_for_file_path "current_tracer") "function_graph"
    let r2 := set_kernel_option_enable_m env (strcat_for_file_path "options/funcgraph-abstime") true
    let r3 := set_kernel_option_enable_m env (strcat_for_file_path "options/funcgraph-cpu") true
    let r4 := set_kernel_option_enable_m env (strcat_for_file_path "options/funcgraph-proc") true
    let r5 := set_kernel_option_enable_m env (strcat_for_file_path "options/funcgraph-flat") true
    let r6 := truncate_file_m env (strcat_for_file_path "set_ftrace_filter")
    (r1.1 ++ r2.1 ++ r3.1 ++ r4.1 ++ r5.1 ++ r6.1,
     r1.2 && r2.2 && r3.2 && r4.2 && r5.2 && r6.2)

/-- Event toggling `disable_kernel_trace_events` (main.rs lines 276-317).
Only the `sched_switch` result feeds the accumulated return value (the
other five writes discard theirs).  The workqueue step probes the
misspelled path `events/workqueuq/enable` (line 293) yet writes
`events/workqueue/enable` (line 294); both strings are kept verbatim. -/
def disable_kernel_trace_events_m (env : KernelEnv) (config : Config) : List Event × Bool :=
  let p1 := strcat_for_file_path "events/sched/sched_switch/enable"
  let r1 := if env.fileWritable p1 then set_kernel_option_enable_m env p1 config.cpu_sched
            else ([], true)
  let p2 := strcat_for_file_path "events/sched/sched_wakeup/enable"
  let e2 := if env.fileWritable p2 then (set_kernel_option_enable_m env p2 config.cpu_sched).1
            else []
  let e3 := if env.fileWritable (strcat_for_file_path "events/workqueuq/enable") then
              (set_kernel_option_enable_m env (strcat_for_file_path "events/workqueue/enable") true).1
            else []
  let p4 := strcat_for_file_path "events/power/cpu_frequency/enable"
  let e4 := if env.fileWritable p4 then (set_kernel_option_enable_m env p4 false).1 else []
  let p5 := strcat_for_file_path "events/power/clock_set_rate/enable"
  let e5 := if env.fileWritable p5 then (set_kernel_option_enable_m env p5 false).1 else []
  let p6 := strcat_for_file_path "events/power/cpu_idle/enable"
  let e6 := if env.fileWritable p6 then (set_kernel_option_enable_m env p6 false).1 else []
  (r1.1 ++ e2 ++ e3 ++ e4 ++ e5 ++ e6, true && r1.2)

/-- Configuring stage `setup_trace` (main.rs lines 723-749): the seven
sub-steps in source order, results AND-accumulated. -/
def setup_trace_m (env : KernelEnv) (config : Config) : List Event × Bool :=
  let r1 := set_trace_overwrite_enable_m env config.overwrite
  let r2 := set_trace_buffer_size_m env config.buflen
  let r3 := set_global_clock_enable_m env true
  let r4 := set_kernel_trace_funcs_m env config.funcs
  let r5 := if config.tgid then set_print_tgid_enable_if_present_m env true else ([], true)
  let r6 := set_trace_recordcmd_enable_m env true
  let r7 := disable_kernel_trace_events_m env config
  (r1.1 ++ r2.1 ++ r3.1 ++ r4.1 ++ r5.1 ++ r6.1 ++ r7.1,
   true && r1.2 && r2.2 && r3.2 && r4.2 && r5.2 && r6.2 && r7.2)

/-- Teardown `cleanup_trace` (main.rs lines 403-411): seven gateway calls
in source order, every result discarded. -/
def cleanup_trace_m (env : KernelEnv) (config : Config) : List Event :=
  (disable_kernel_trace_events_m env config).1 ++
  (set_trace_recordcmd_enable_m env false).1 ++
  (set_trace_overwrite_enable_m env true).1 ++
  (set_trace_buffer_size_m env 1).1 ++
  (set_global_clock_enable_m env false).1 ++
  (set_print_tgid_enable_if_present_m env false).1 ++
  (set_kernel_trace_funcs_m env "").1

/-- Result of one `main` run: the events performed after option parsing,
and the `i32` passed to `process::exit` (`0` when `main` falls off the
end normally).  `exit(-1)` reaches the OS as 255; the argument itself is
recorded. -/
structure MainResult where
  events : List Event
  exitArg : Int
deriving Repr, DecidableEq

/-- Capture window of `main` (main.rs lines 685-698): entered when the
accumulated `ret` and the `begin` flag hold; flushes stdout unless
streaming, reassigns `ret` to the `clear_trace` result, writes the
clock-sync marker (`write_clock_sync_marker`, lines 378-384, result
discarded), then sleeps for the capture duration in synchronous
non-streaming mode (`stream_trace` is an empty stub, lines 203-205).
Returns the events and the value `ret` holds afterwards. -/
def main_begin_phase (env : KernelEnv) (config : Config) (fl : PhaseFlags) (ret : Bool) :
    List Event × Bool :=
  if ret && fl.begin then
    let f := if !fl.trace_stream then [Event.flush] else []
    let c := clear_trace_m env
    let m := (trace_write_string_m env (strcat_for_file_path "trace_marker")
               "trace_event_clock_sync: parent_ts=9000000\n").1
    let s := if c.2 && !fl.trace_async && !fl.trace_stream then
               [Event.sleepMs (config.durationsec * 1000)] else []
    (f ++ c.1 ++ m ++ s, c.2)
  else ([], ret)

/-- Dump step of `main` (main.rs lines 703-714): when `ret && dump`, the
`G_TRACE_ABORTED` flag chooses between flush-then-`print_trace` and
flush alone, and `clear_trace` always follows; when `ret` is false the
diagnostic message is printed instead. -/
def main_dump_phase (env : KernelEnv) (fl : PhaseFlags) (ret : Bool) : List Event :=
  if ret && fl.dump then
    (if !env.aborted then [Event.flush, Event.printTrace] else [Event.flush]) ++
      (clear_trace_m env).1
  else if !ret then
    [Event.printlnMsg "unable to start tracing, please check debugfs setup correctly\n"]
  else []

/-- Configuration as `main` sees it after the flag derivation: the
`overwrite` field may have been forced by the `begin_async` branch
(main.rs line 645). -/
def mainConfig (config0 : Config) : Config :=
  { config0 with overwrite := (derive_phase_flags config0).overwrite }

/-- Value of `main`'s local `ret` after `setup_trace` and
`set_tracing_enabled(true)` (main.rs lines 667, 681-682): `true`
AND-accumulated with both results. -/
def main_ret0 (env : KernelEnv) (config0 : Config) : Bool :=
  true && (setup_trace_m env (mainConfig config0)).2 && (set_tracing_enabled_m env true).2

/-- Value the local `ret` of `main` holds when control reaches the dump
step (main.rs line 704): `main_ret0`, possibly reassigned to the
`clear_trace` result inside the capture window. -/
def ret_at_dump (env : KernelEnv) (config0 : Config) : Bool :=
  (main_begin_phase env (mainConfig config0) (derive_phase_flags config0)
    (main_ret0 env config0)).2

/-- Session controller `main` (main.rs lines 627-719): phase-flag
derivation, the `show_category` early exit (lines 656-660), the replay
short-circuit (lines 670-673, exiting with `uncompress_trace`'s result),
the pre-capture sleep, `setup_trace` and `set_tracing_enabled(true)`
(lines 681-682, unconditional), the capture window, the conditional
master-switch disable (lines 700-702), the dump step, and the
conditional `cleanup_trace` (lines 716-718).  `register_sig_handler`
performs no kernel-filesystem event and is elided. -/
def main_m (env : KernelEnv) (config0 : Config) : MainResult :=
  if config0.show_category then
    ⟨[Event.printlnMsg "no support categories"], 0⟩
  else if (mainConfig config0).uncompress_file ≠ "" then
    ⟨[Event.uncompressTrace], env.uncompressRet⟩
  else
    ⟨(if (mainConfig config0).sleepsec > 0 then
        [Event.sleepMs ((mainConfig config0).sleepsec * 1000)] else []) ++
      (setup_trace_m env (mainConfig config0)).1 ++
      (set_tracing_enabled_m env true).1 ++
      (main_begin_phase env (mainConfig config0) (derive_phase_flags config0)
        (main_ret0 env config0)).1 ++
      (if (derive_phase_flags config0).stop then (set_tracing_enabled_m env false).1 else []) ++
      main_dump_phase env (derive_phase_flags config0) (ret_at_dump env config0) ++
      (if (derive_phase_flags config0).stop then cleanup_trace_m env (mainConfig config0)
       else []), 0⟩

/-- Byte-level `write_string` (main.rs lines 352-372): `openOk` is
whether `OpenOptions::open` succeeded, `bytesWritten` the count returned
by the single `write` call (Rust's `str.len()` is the UTF-8 byte size).
An open failure prints a message and yields `false` instead of
panicking; a write count different from the input length yields `false`;
there is no retry. -/
def write_string (openOk : Bool) (bytesWritten : Nat) (str : String) : Bool :=
  let ret := true
  if !openOk then
    false
  else if bytesWritten ≠ str.utf8ByteSize then
    false
  else ret

/-- Rust string slice `l[start..stop]` on (ASCII) character lists:
`none` models the panic raised when `start > stop` or `stop` exceeds the
length. -/
def strSlice? (l : List Char) (start stop : Nat) : Option (List Char) :=
  if start ≤ stop ∧ stop ≤ l.length then some ((l.drop start).take (stop - start)) else none

/-- Bracketed-token matching of `is_traceclock_mode` (main.rs lines
170-200) on the file contents it read (the source opens
`buffer_size_kb`, not a clock file, and supplies the contents here).
`none` models a panic.  Mirrored faithfully: an empty read returns
`false`; a missing `[` returns `false`; a missing `]` panics, because
the second `is_none` guard (line 187) re-tests `f` instead of `ff`
before `ff.unwrap()`; `index_end` is the position of `]` relative to the
suffix after `[`, minus one (modelled as a panic when it underflows,
line 191), yet it is used to slice the whole string from the absolute
`index`; and a successful slice returns `true` whether or not it equals
`mode`, because the non-matching case falls through to the final `true`
(line 199). -/
def is_traceclock_mode_core (contents mode : List Char) : Option Bool :=
  if contents.length = 0 then
    some false
  else
    match List.findIdx? (fun c => c = '[') contents with
    | none => some false
    | some f =>
      let index := f + 1
      match List.findIdx? (fun c => c = ']') (contents.drop index) with
      | none => none
      | some ff =>
        if ff = 0 then none
        else
          let index_end := ff - 1
          match strSlice? contents index index_end with
          | none => none
          | some s => if s = mode then some true else some true


/-- Modelled from the spec: the zlib streaming codec (`deflate` /
`inflate` with a `z_stream`), which is an external library, not part of
this repository.  Per §4.4/§4.5 of the design, a codec call consumes
bytes from the current input (`avail_in`), produces at most `space`
(`avail_out`) output bytes, and returns a status code; `fin` is whether
the flush mode has been switched to `Z_FINISH`.  `step st inp space fin`
returns the new codec state, the unconsumed input, the produced output
and the status code.  `absIn`/`absOut` expose the total bytes consumed
and emitted so far, relating the state to byte streams. -/
structure CodecSpec (σ : Type) where
  state0 : σ
  step : σ → List Nat → Nat → Bool → σ × List Nat × List Nat × Int
  absIn : σ → List Nat
  absOut : σ → List Nat

/-- Modelled from the spec: laws a well-behaved streaming codec obeys,
`f` being the whole-stream function it computes (deflate's compression
or inflate's decompression).  `consume`: each call consumes a prefix of
the offered input; `emit`: the produced bytes extend the emitted stream;
`emit_le`: production is bounded by the available output space;
`end_finish`: `Z_STREAM_END` is only returned under `Z_FINISH`;
`end_correct`: at `Z_STREAM_END` the emitted stream is exactly `f` of
the consumed stream. -/
structure CodecOK {σ : Type} (c : CodecSpec σ) (f : List Nat → List Nat) : Prop where
  abs0_in : c.absIn c.state0 = []
  abs0_out : c.absOut c.state0 = []
  consume : ∀ s inp space fin, ∃ k,
    (c.step s inp space fin).2.1 = inp.drop k ∧
    c.absIn (c.step s inp space fin).1 = c.absIn s ++ inp.take k
  emit : ∀ s inp space fin,
    c.absOut (c.step s inp space fin).1 = c.absOut s ++ (c.step s inp space fin).2.2.1
  emit_le : ∀ s inp space fin, (c.step s inp space fin).2.2.1.length ≤ space
  end_finish : ∀ s inp space fin,
    (c.step s inp space fin).2.2.2 = Z_STREAM_END → fin = true
  end_correct : ∀ s inp space fin,
    (c.step s inp space fin).2.2.2 = Z_STREAM_END →
    c.absOut (c.step s inp space fin).1 = f (c.absIn (c.step s inp space fin).1)

/-- Mutable state of the transfer loop shared by `print_trace`'s
compressed mode (main.rs lines 472-500) and `uncompress_trace` (lines
575-603): `ret`, the flush mode (`finish` is `refresh == Z_FINISH`), the
unread remainder of the source file, the unconsumed bytes in `pibuf`
(`avail_in`), the bytes in `pobuf` not yet written (`buflen` minus
`avail_out`), the bytes delivered to standard output, the codec state
and the index of the next `write` call. -/
structure LoopState (σ : Type) where
  ret : Int
  finish : Bool
  fileRem : List Nat
  availIn : List Nat
  outBuf : List Nat
  stdout : List Nat
  cs : σ
  wIdx : Nat
deriving Repr, DecidableEq

/-- Read step of the transfer loop (main.rs lines 474-486 / 577-589):
when `avail_in` is 0, read the next chunk of at most `buflen` bytes;
zero bytes read switches the flush mode to `Z_FINISH`, otherwise the
chunk becomes the new input and `ret` holds the count.  Reads of the
regular source file are modelled as always succeeding (the `ret < 0`
break never fires). -/
def readStep {σ : Type} (buflen : Nat) (st : LoopState σ) : LoopState σ :=
  if st.availIn.isEmpty then
    -- the read chunk is `st.fileRem.take buflen`
    if (st.fileRem.take buflen).isEmpty then { st with ret := 0, finish := true }
    else { st with ret := ((st.fileRem.take buflen).length : Int),
                   availIn := st.fileRem.take buflen,
                   fileRem := st.fileRem.drop buflen }
  else st

/-- Write step of the transfer loop (main.rs lines 488-498 / 591-601):
when `avail_out` is 0, write the full `buflen`-byte chunk to standard
output; a return below `buflen` resets `avail_out` and breaks (the
returned `Bool`), otherwise the chunk is delivered and the output cursor
reset.  `writeRet i n` is the environment's return value of the `i`-th
`write` call requesting `n` bytes. -/
def writeStep {σ : Type} (buflen : Nat) (writeRet : Nat → Nat → Nat) (st : LoopState σ) :
    LoopState σ × Bool :=
  if buflen - st.outBuf.length = 0 then
    -- the write's return value is `writeRet st.wIdx buflen`
    if writeRet st.wIdx buflen < buflen then
      ({ st with ret := (writeRet st.wIdx buflen : Int),
                 stdout := st.stdout ++ st.outBuf.take (writeRet st.wIdx buflen),
                 outBuf := [], wIdx := st.wIdx + 1 }, true)
    else
      ({ st with ret := (writeRet st.wIdx buflen : Int), stdout := st.stdout ++ st.outBuf,
                 outBuf := [], wIdx := st.wIdx + 1 }, false)
  else (st, false)

/-- Codec step of the transfer loop (main.rs line 499 / 602): one
`deflate`/`inflate` call on the current input with the current output
space, appending its production to `pobuf` and storing its status in
`ret`. -/
def codecStep {σ : Type} (c : CodecSpec σ) (buflen : Nat) (st : LoopState σ) : LoopState σ :=
  { st with cs := (c.step st.cs st.availIn (buflen - st.outBuf.length) st.finish).1,
            availIn := (c.step st.cs st.availIn (buflen - st.outBuf.length) st.finish).2.1,
            outBuf := st.outBuf ++
              (c.step st.cs st.availIn (buflen - st.outBuf.length) st.finish).2.2.1,
            ret := (c.step st.cs st.availIn (buflen - st.outBuf.length) st.finish).2.2.2 }

/-- How the transfer loop stopped. -/
inductive LoopExit where
  | finished
  | shortWrite
  | fuelOut
deriving Repr, DecidableEq

/-- Transfer loop `while Z_OK == ret` shared verbatim by main.rs lines
473-500 (deflate) and 576-603 (inflate): read step, write step (whose
short-write break exits the loop), then the codec call.  `fuel` bounds
the number of iterations; the claims are about runs that exit on their
own. -/
def transferLoop {σ : Type} (c : CodecSpec σ) (buflen : Nat) (writeRet : Nat → Nat → Nat) :
    Nat → LoopState σ → LoopState σ × LoopExit
  | 0, st => (st, LoopExit.fuelOut)
  | fuel + 1, st =>
    if st.ret = Z_OK then
      let st1 := readStep buflen st
      let p := writeStep buflen writeRet st1
      if p.2 then (p.1, LoopExit.shortWrite)
      else transferLoop c buflen writeRet fuel (codecStep c buflen p.1)
    else (st, LoopExit.finished)

/-- Outcome of one full pipeline transfer: the final `ret`, the bytes
delivered to standard output, the loop's status code at exit (`ret`
before the trailing flush overwrites it) and how the loop stopped. -/
structure PipeOut where
  ret : Int
  stdout : List Nat
  code : Int
  exit : LoopExit
deriving Repr, DecidableEq

/-- Whole compressed transfer (main.rs lines 467-510 / 568-613): initial
stream state with an empty `avail_in` and a full `avail_out`, the loop,
then the trailing flush `if avail_out < BUFFER_LEN` which writes the
partial chunk once and stores the write's return in `ret`. -/
def pipeRun {σ : Type} (c : CodecSpec σ) (buflen : Nat) (writeRet : Nat → Nat → Nat)
    (fuel : Nat) (input : List Nat) : PipeOut :=
  let st0 : LoopState σ :=
    { ret := 0, finish := false, fileRem := input, availIn := [], outBuf := [],
      stdout := [], cs := c.state0, wIdx := 0 }
  let r := transferLoop c buflen writeRet fuel st0
  let st := r.1
  if st.outBuf.length ≠ 0 then
    let w := writeRet st.wIdx st.outBuf.length
    { ret := (w : Int), stdout := st.stdout ++ st.outBuf.take w, code := st.ret, exit := r.2 }
  else
    { ret := st.ret, stdout := st.stdout, code := st.ret, exit := r.2 }

/-- Result of a whole pipeline call (`print_trace` / `uncompress_trace`):
return value, bytes delivered to standard output, number of successful
`malloc`s and of `free`s, whether `deflateEnd`/`inflateEnd` ran, whether
the source descriptor was closed, and the loop's exit status. -/
structure PipeResult where
  ret : Int
  stdout : List Nat
  allocs : Nat
  frees : Nat
  codecEnded : Bool
  fdClosed : Bool
  code : Int
  exit : LoopExit
deriving Repr, DecidableEq

/-- Environment of one `print_trace` call (main.rs lines 413-530):
whether the `open` of the trace file succeeds, `deflateInit_`'s return,
whether each chunk-buffer `malloc` succeeds, and the return value of
each stdout `write`. -/
structure CaptureEnv where
  openOk : Bool
  initRet : Int
  allocPibufOk : Bool
  allocPobufOk : Bool
  writeRet : Nat → Nat → Nat

/-- Capture pipeline `print_trace` (main.rs lines 413-530) with
`BUFFER_LEN` abstracted as `buflen`.  A failed open returns `-1` before
anything is allocated (lines 415-418); in compressed mode a failed
`deflateInit_` or chunk-buffer allocation frees what exists, closes the
descriptor and returns `-1` (lines 428-465); otherwise the transfer loop
and trailing flush run, then `deflateEnd` and the three `free`s (lines
512-515).  Raw mode (lines 517-523) is the `sendfile` passthrough: the
whole file reaches standard output and `ret` keeps its initial `0`.
The `z_stream` `malloc` itself is not null-checked by the source and is
modelled as always succeeding. -/
def print_trace_m {σ : Type} (compress : Bool) (c : CodecSpec σ) (buflen : Nat)
    (env : CaptureEnv) (fuel : Nat) (traceBytes : List Nat) : PipeResult :=
  if !env.openOk then
    { ret := -1, stdout := [], allocs := 0, frees := 0, codecEnded := false,
      fdClosed := false, code := 0, exit := LoopExit.finished }
  else if compress then
    if env.initRet ≠ Z_OK then
      { ret := -1, stdout := [], allocs := 1, frees := 1, codecEnded := false,
        fdClosed := true, code := 0, exit := LoopExit.finished }
    else if !env.allocPibufOk then
      { ret := -1, stdout := [], allocs := 1, frees := 1, codecEnded := false,
        fdClosed := true, code := 0, exit := LoopExit.finished }
    else if !env.allocPobufOk then
      { ret := -1, stdout := [], allocs := 2, frees := 2, codecEnded := false,
        fdClosed := true, code := 0, exit := LoopExit.finished }
    else
      let r := pipeRun c buflen env.writeRet fuel traceBytes
      { ret := r.ret, stdout := r.stdout, allocs := 3, frees := 3, codecEnded := true,
        fdClosed := true, code := r.code, exit := r.exit }
  else
    { ret := 0, stdout := traceBytes, allocs := 0, frees := 0, codecEnded := false,
      fdClosed := true, code := 0, exit := LoopExit.finished }

/-- Environment of one `uncompress_trace` call (main.rs lines 532-625):
whether the `open` of the replay file succeeds, `inflateInit_`'s return,
the chunk-buffer allocations, and the stdout `write` returns. -/
structure ReplayEnv where
  openOk : Bool
  initRet : Int
  allocPibufOk : Bool
  allocPobufOk : Bool
  writeRet : Nat → Nat → Nat

/-- Replay pipeline `uncompress_trace` (main.rs lines 532-625) with
`BUFFER_LEN` abstracted as `buflen`: a failed open prints a message and
returns `-1` (lines 620-623); a failed `inflateInit_` or allocation
frees what exists and returns `-1` (lines 546-566); otherwise the same
transfer loop and trailing flush as the capture side run on the replay
file's bytes, followed by `inflateEnd` and the three `free`s. -/
def uncompress_trace_m {σ : Type} (c : CodecSpec σ) (buflen : Nat)
    (env : ReplayEnv) (fuel : Nat) (fileBytes : List Nat) : PipeResult :=
  if !env.openOk then
    { ret := -1, stdout := [], allocs := 0, frees := 0, codecEnded := false,
      fdClosed := false, code := 0, exit := LoopExit.finished }
  else if env.initRet ≠ Z_OK then
    { ret := -1, stdout := [], allocs := 1, frees := 1, codecEnded := false,
      fdClosed := false, code := 0, exit := LoopExit.finished }
  else if !env.allocPibufOk then
    { ret := -1, stdout := [], allocs := 1, frees := 1, codecEnded := false,
      fdClosed := false, code := 0, exit := LoopExit.finished }
  else if !env.allocPobufOk then
    { ret := -1, stdout := [], allocs := 2, frees := 2, codecEnded := false,
      fdClosed := false, code := 0, exit := LoopExit.finished }
  else
    let r := pipeRun c buflen env.writeRet fuel fileBytes
    { ret := r.ret, stdout := r.stdout, allocs := 3, frees := 3, codecEnded := true,
      fdClosed := true, code := r.code, exit := r.exit }

/-- Identity streaming codec: consumes everything it is offered,
re-emits the consumed stream as space allows, and reports
`Z_STREAM_END` once, under `Z_FINISH`, everything consumed has been
emitted.  It satisfies `CodecOK` with `f = id` and serves as a concrete
codec for evaluating the pipeline on inputs. -/
def idCodec : CodecSpec (List Nat × List Nat) where
  state0 := ([], [])
  step s inp space fin :=
    let allIn := s.1 ++ inp
    let out := (allIn.drop s.2.length).take space
    let allOut := s.2 ++ out
    ((allIn, allOut), [], out, if fin = true ∧ allOut = allIn then Z_STREAM_END else Z_OK)
  absIn s := s.1
  absOut s := s.2


/-- Laws `CodecOK` hold of the identity codec with `f = id`. -/
theorem idCodec_ok : CodecOK idCodec id := by
  constructor
  · rfl
  · rfl
  · intro s inp space fin
    refine ⟨inp.length, ?_, ?_⟩
    · simp [idCodec]
    · simp [idCodec]
  · intro s inp space fin
    rfl
  · intro s inp space fin
    simp [idCodec]
  · intro s inp space fin h
    simp only [idCodec] at h
    split at h
    · exact (by assumption : fin = true ∧ _).1
    · exact absurd h (by decide)
  · intro s inp space fin h
    simp only [idCodec] at h ⊢
    split at h
    next hc =>
      simpa using hc.2
    · exact absurd h (by decide)

/-- Invariant of the transfer loop tying the loop state to the byte
streams: delivered-plus-pending output equals the codec's emitted
stream; consumed-plus-buffered-plus-unread input equals the source
bytes; the pending output fits the chunk buffer; and once the flush mode
is `Z_FINISH` the input side is exhausted. -/
def CoreInv {σ : Type} (c : CodecSpec σ) (buflen : Nat) (input : List Nat)
    (st : LoopState σ) : Prop :=
  st.stdout ++ st.outBuf = c.absOut st.cs ∧
  c.absIn st.cs ++ st.availIn ++ st.fileRem = input ∧
  st.outBuf.length ≤ buflen ∧
  (st.finish = true → st.fileRem = [] ∧ st.availIn = [])

/-- Strengthening of `CoreInv` holding at every loop head: if the codec
has reported `Z_STREAM_END`, everything it emitted is `f` of the whole
source. -/
def LoopInv {σ : Type} (c : CodecSpec σ) (f : List Nat → List Nat) (buflen : Nat)
    (input : List Nat) (st : LoopState σ) : Prop :=
  CoreInv c buflen input st ∧ (st.ret = Z_STREAM_END → c.absOut st.cs = f input)

/-- Read step preserves the core invariant. -/
theorem readStep_core {σ : Type} {c : CodecSpec σ} {buflen : Nat} {input : List Nat}
    {st : LoopState σ} (hb : 0 < buflen) (h : CoreInv c buflen input st) :
    CoreInv c buflen input (readStep buflen st) := by
  obtain ⟨h1, h2, h3, h4⟩ := h
  unfold readStep
  split
  next hemp =>
    have havail : st.availIn = [] := List.isEmpty_iff.mp hemp
    split
    next hchunk =>
      have hrem : st.fileRem = [] := by
        rcases List.take_eq_nil_iff.mp (List.isEmpty_iff.mp hchunk) with h' | h'
        · exact absurd h' hb.ne'
        · exact h'
      exact ⟨h1, h2, h3, fun _ => ⟨hrem, havail⟩⟩
    next hchunk =>
      refine ⟨h1, ?_, h3, ?_⟩
      · simpa [havail] using h2
      · intro hfin
        have := (h4 hfin).1
        simp [this] at hchunk
  · exact ⟨h1, h2, h3, h4⟩

/-- With full writes the write step never breaks and preserves the core
invariant. -/
theorem writeStep_full {σ : Type} {c : CodecSpec σ} {buflen : Nat} {input : List Nat}
    {writeRet : Nat → Nat → Nat} {st : LoopState σ}
    (hw : ∀ i n, writeRet i n = n) (h : CoreInv c buflen input st) :
    (writeStep buflen writeRet st).2 = false ∧
      CoreInv c buflen input (writeStep buflen writeRet st).1 := by
  obtain ⟨h1, h2, h3, h4⟩ := h
  unfold writeStep
  split
  · rw [if_neg (by simp [hw])]
    exact ⟨rfl, by simpa using h1, h2, by simp, h4⟩
  · exact ⟨rfl, h1, h2, h3, h4⟩

/-- One codec call turns the core invariant into the full loop
invariant. -/
theorem codecStep_inv {σ : Type} {c : CodecSpec σ} {f : List Nat → List Nat} {buflen : Nat}
    {input : List Nat} {st : LoopState σ}
    (hc : CodecOK c f) (h : CoreInv c buflen input st) :
    LoopInv c f buflen input (codecStep c buflen st) := by
  obtain ⟨h1, h2, h3, h4⟩ := h
  obtain ⟨k, hk1, hk2⟩ := hc.consume st.cs st.availIn (buflen - st.outBuf.length) st.finish
  have hemit := hc.emit st.cs st.availIn (buflen - st.outBuf.length) st.finish
  have hle := hc.emit_le st.cs st.availIn (buflen - st.outBuf.length) st.finish
  refine ⟨⟨?_, ?_, ?_, ?_⟩, ?_⟩
  · simp only [codecStep, hemit, ← h1, List.append_assoc]
  · simp only [codecStep, hk1, hk2, List.append_assoc]
    rw [← List.append_assoc (st.availIn.take k), List.take_append_drop]
    simpa [List.append_assoc] using h2
  · simp only [codecStep, List.length_append]
    omega
  · intro hfin
    obtain ⟨hrem, havail⟩ := h4 (by simpa [codecStep] using hfin)
    rw [havail] at hk1
    simp [codecStep, hk1, havail, hrem]
  · intro hend
    have hend' : (c.step st.cs st.availIn (buflen - st.outBuf.length) st.finish).2.2.2 =
        Z_STREAM_END := by simpa [codecStep] using hend
    have hfin : st.finish = true :=
      hc.end_finish st.cs st.availIn (buflen - st.outBuf.length) st.finish hend'
    obtain ⟨hrem, havail⟩ := h4 hfin
    have habs : c.absIn (c.step st.cs st.availIn (buflen - st.outBuf.length) st.finish).1 =
        input := by
      rw [hk2, havail]
      simpa [havail, hrem] using h2
    have := hc.end_correct st.cs st.availIn (buflen - st.outBuf.length) st.finish hend'
    simpa [codecStep, habs] using this

/-- With a lawful codec and full writes, the loop invariant holds at the
state in which the transfer loop exits normally. -/
theorem transferLoop_finished_inv {σ : Type} {c : CodecSpec σ} {f : List Nat → List Nat}
    {buflen : Nat} {input : List Nat} {writeRet : Nat → Nat → Nat}
    (hc : CodecOK c f) (hb : 0 < buflen) (hw : ∀ i n, writeRet i n = n) :
    ∀ (fuel : Nat) (st st' : LoopState σ), LoopInv c f buflen input st →
      transferLoop c buflen writeRet fuel st = (st', LoopExit.finished) →
      LoopInv c f buflen input st' := by
  intro fuel
  induction fuel with
  | zero =>
    intro st st' _ hrun
    exact absurd (congrArg Prod.snd hrun) (by simp [transferLoop])
  | succ fuel ih =>
    intro st st' h hrun
    rw [transferLoop] at hrun
    split at hrun
    · have hcore1 := readStep_core hb h.1
      obtain ⟨hbrk, hcore2⟩ := writeStep_full hw hcore1
      rw [if_neg (by simp [hbrk])] at hrun
      exact ih _ _ (codecStep_inv hc hcore2) hrun
    · obtain ⟨rfl, -⟩ := Prod.mk.injEq .. ▸ hrun
      exact h

/-- With a lawful codec, full writes and a normal `Z_STREAM_END` exit,
the whole transfer delivers exactly `f` of the source bytes to standard
output. -/
theorem pipeRun_stdout {σ : Type} {c : CodecSpec σ} {f : List Nat → List Nat}
    {buflen : Nat} {writeRet : Nat → Nat → Nat} {fuel : Nat} {input : List Nat}
    (hc : CodecOK c f) (hb : 0 < buflen) (hw : ∀ i n, writeRet i n = n)
    (hfin : (pipeRun c buflen writeRet fuel input).exit = LoopExit.finished)
    (hend : (pipeRun c buflen writeRet fuel input).code = Z_STREAM_END) :
    (pipeRun c buflen writeRet fuel input).stdout = f input := by
  have hinv0 : LoopInv c f buflen input
      { ret := 0, finish := false, fileRem := input, availIn := [], outBuf := [],
        stdout := [], cs := c.state0, wIdx := 0 } := by
    refine ⟨⟨?_, ?_, ?_, ?_⟩, ?_⟩
    · simp [hc.abs0_out]
    · simp [hc.abs0_in]
    · simp
    · intro h; simp at h
    · intro h; simp [Z_STREAM_END] at h
  rcases hrun : transferLoop c buflen writeRet fuel
      { ret := 0, finish := false, fileRem := input, availIn := [], outBuf := [],
        stdout := [], cs := c.state0, wIdx := 0 } with ⟨st, ex⟩
  simp only [pipeRun, hrun] at hfin hend ⊢
  have hex : ex = LoopExit.finished := by
    by_cases hob : st.outBuf.length ≠ 0
    · simpa [hob] using hfin
    · simpa [hob] using hfin
  have hret : st.ret = Z_STREAM_END := by
    by_cases hob : st.outBuf.length ≠ 0
    · simpa [hob] using hend
    · simpa [hob] using hend
  have hinv := transferLoop_finished_inv hc hb hw fuel _ st hinv0 (hex ▸ hrun)
  have hout : st.stdout ++ st.outBuf = f input := hinv.1.1.trans (hinv.2 hret)
  by_cases hob : st.outBuf.length ≠ 0
  · simp only [if_pos hob, hw]
    simpa using hout
  · simp only [if_neg hob]
    have hnil : st.outBuf = [] := by simpa using hob
    simpa [hnil] using hout

/-- Write-step outcomes: either no break, or a break with the output
cursor reset (`avail_out = buflen`, i.e. an empty pending buffer). -/
theorem writeStep_cases {σ : Type} (buflen : Nat) (writeRet : Nat → Nat → Nat)
    (st : LoopState σ) :
    (writeStep buflen writeRet st).2 = false ∨
      ((writeStep buflen writeRet st).2 = true ∧
        (writeStep buflen writeRet st).1.outBuf = []) := by
  unfold writeStep
  split
  · split
    · exact Or.inr ⟨rfl, rfl⟩
    · exact Or.inl rfl
  · exact Or.inl rfl

/-- A loop run that ends in a short write leaves an empty pending output
buffer (the source resets `avail_out` to `BUFFER_LEN` before breaking,
main.rs line 493 / 596, so the trailing flush is skipped). -/
theorem transferLoop_shortWrite_outBuf {σ : Type} {c : CodecSpec σ} {buflen : Nat}
    {writeRet : Nat → Nat → Nat} :
    ∀ (fuel : Nat) (st st' : LoopState σ),
      transferLoop c buflen writeRet fuel st = (st', LoopExit.shortWrite) →
      st'.outBuf = [] := by
  intro fuel
  induction fuel with
  | zero =>
    intro st st' h
    exact absurd (congrArg Prod.snd h) (by simp [transferLoop])
  | succ fuel ih =>
    intro st st' h
    rw [transferLoop] at h
    split at h
    · rcases writeStep_cases buflen writeRet (readStep buflen st) with hb | ⟨hb, hob⟩
      · rw [if_neg (by simp [hb])] at h
        exact ih _ _ h
      · rw [if_pos (by simp [hb])] at h
        obtain ⟨rfl, -⟩ := Prod.mk.injEq .. ▸ h
        exact hob
    · exact absurd (congrArg Prod.snd h) (by simp)

/-- On the short-write exit path the pipeline's final result is the loop
state at the break: the trailing flush is skipped, the delivered bytes
and `ret` are the break state's. -/
theorem pipeRun_shortWrite {σ : Type} {c : CodecSpec σ} {buflen : Nat}
    {writeRet : Nat → Nat → Nat} {fuel : Nat} {input : List Nat} {st : LoopState σ}
    (hrun : transferLoop c buflen writeRet fuel
      { ret := 0, finish := false, fileRem := input, availIn := [], outBuf := [],
        stdout := [], cs := c.state0, wIdx := 0 } = (st, LoopExit.shortWrite)) :
    pipeRun c buflen writeRet fuel input =
      { ret := st.ret, stdout := st.stdout, code := st.ret, exit := LoopExit.shortWrite } := by
  have hob : st.outBuf = [] := transferLoop_shortWrite_outBuf fuel _ st hrun
  simp [pipeRun, hrun, hob]

/-- In compressed mode with a successful open, codec init and both
allocations, `print_trace` runs the transfer and releases everything:
three allocations, three frees, `deflateEnd`, descriptor closed. -/
theorem print_trace_m_run {σ : Type} (c : CodecSpec σ) (buflen : Nat) (env : CaptureEnv)
    (fuel : Nat) (traceBytes : List Nat)
    (hopen : env.openOk = true) (hinit : env.initRet = Z_OK)
    (hpi : env.allocPibufOk = true) (hpo : env.allocPobufOk = true) :
    print_trace_m true c buflen env fuel traceBytes =
      { ret := (pipeRun c buflen env.writeRet fuel traceBytes).ret,
        stdout := (pipeRun c buflen env.writeRet fuel traceBytes).stdout,
        allocs := 3, frees := 3, codecEnded := true, fdClosed := true,
        code := (pipeRun c buflen env.writeRet fuel traceBytes).code,
        exit := (pipeRun c buflen env.writeRet fuel traceBytes).exit } := by
  simp [print_trace_m, hopen, hinit, hpi, hpo]

/-- With a successful open, codec init and both allocations,
`uncompress_trace` runs the transfer and releases everything. -/
theorem uncompress_trace_m_run {σ : Type} (c : CodecSpec σ) (buflen : Nat) (env : ReplayEnv)
    (fuel : Nat) (fileBytes : List Nat)
    (hopen : env.openOk = true) (hinit : env.initRet = Z_OK)
    (hpi : env.allocPibufOk = true) (hpo : env.allocPobufOk = true) :
    uncompress_trace_m c buflen env fuel fileBytes =
      { ret := (pipeRun c buflen env.writeRet fuel fileBytes).ret,
        stdout := (pipeRun c buflen env.writeRet fuel fileBytes).stdout,
        allocs := 3, frees := 3, codecEnded := true, fdClosed := true,
        code := (pipeRun c buflen env.writeRet fuel fileBytes).code,
        exit := (pipeRun c buflen env.writeRet fuel fileBytes).exit } := by
  simp [uncompress_trace_m, hopen, hinit, hpi, hpo]

/-- Write event that disables the kernel tracing master switch
(`set_tracing_enabled(false)`). -/
def tracingOffEvent : Event := Event.write (strcat_for_file_path "tracing_on") "0"

/-- Path concatenation under the fixed root is injective. -/
theorem strcat_for_file_path_inj {a b : String}
    (h : strcat_for_file_path a = strcat_for_file_path b) : a = b := by
  have h2 := congrArg String.data h
  simp only [strcat_for_file_path, String.data_append] at h2
  exact String.ext (List.append_cancel_left h2)

/-- A write to any option file other than `tracing_on` is not the
master-switch-off event, whatever its payload. -/
theorem tracingOff_ne_write {p c : String} (hp : p ≠ "tracing_on") :
    tracingOffEvent ≠ Event.write (strcat_for_file_path p) c := by
  simp only [tracingOffEvent, ne_eq, Event.write.injEq, not_and]
  intro h
  exact absurd (strcat_for_file_path_inj h).symm hp

/-- Option toggles on files other than `tracing_on` never emit the
master-switch-off event. -/
theorem tracingOff_notin_koe (env : KernelEnv) (p : String) (e : Bool)
    (hp : p ≠ "tracing_on") :
    tracingOffEvent ∉ (set_kernel_option_enable_m env (strcat_for_file_path p) e).1 := by
  simp only [set_kernel_option_enable_m, trace_write_string_m, write_string_m,
    List.mem_singleton]
  exact fun h => tracingOff_ne_write hp h

/-- Raw string writes to files other than `tracing_on` never emit the
master-switch-off event. -/
theorem tracingOff_notin_tws (env : KernelEnv) (p c : String) (hp : p ≠ "tracing_on") :
    tracingOffEvent ∉ (trace_write_string_m env (strcat_for_file_path p) c).1 := by
  simp only [trace_write_string_m, write_string_m, List.mem_singleton]
  exact fun h => tracingOff_ne_write hp h

/-- The tracer-selection step never touches `tracing_on`. -/
theorem tracingOff_notin_funcs (env : KernelEnv) (funcs : String) :
    tracingOffEvent ∉ (set_kernel_trace_funcs_m env funcs).1 := by
  simp only [set_kernel_trace_funcs_m]
  split
  · split
    · exact tracingOff_notin_tws env "current_tracer" "nop" (by decide)
    · simp
  · simp only [truncate_file_m, List.mem_append, List.mem_singleton]
    push_neg
    refine ⟨⟨⟨⟨⟨?_, ?_⟩, ?_⟩, ?_⟩, ?_⟩, by simp [tracingOffEvent]⟩
    · exact tracingOff_notin_tws env "current_tracer" "function_graph" (by decide)
    · exact tracingOff_notin_koe env "options/funcgraph-abstime" true (by decide)
    · exact tracingOff_notin_koe env "options/funcgraph-cpu" true (by decide)
    · exact tracingOff_notin_koe env "options/funcgraph-proc" true (by decide)
    · exact tracingOff_notin_koe env "options/funcgraph-flat" true (by decide)

/-- The event-toggling step never touches `tracing_on`. -/
theorem tracingOff_notin_disable (env : KernelEnv) (config : Config) :
    tracingOffEvent ∉ (disable_kernel_trace_events_m env config).1 := by
  simp only [disable_kernel_trace_events_m, List.mem_append]
  push_neg
  refine ⟨⟨⟨⟨⟨?_, ?_⟩, ?_⟩, ?_⟩, ?_⟩, ?_⟩
  · split
    · exact tracingOff_notin_koe env "events/sched/sched_switch/enable" config.cpu_sched
        (by decide)
    · simp
  · split
    · exact tracingOff_notin_koe env "events/sched/sched_wakeup/enable" config.cpu_sched
        (by decide)
    · simp
  · split
    · exact tracingOff_notin_koe env "events/workqueue/enable" true (by decide)
    · simp
  · split
    · exact tracingOff_notin_koe env "events/power/cpu_frequency/enable" false (by decide)
    · simp
  · split
    · exact tracingOff_notin_koe env "events/power/clock_set_rate/enable" false (by decide)
    · simp
  · split
    · exact tracingOff_notin_koe env "events/power/cpu_idle/enable" false (by decide)
    · simp

/-- The tgid toggle never touches `tracing_on`. -/
theorem tracingOff_notin_tgid (env : KernelEnv) (e : Bool) :
    tracingOffEvent ∉ (set_print_tgid_enable_if_present_m env e).1 := by
  simp only [set_print_tgid_enable_if_present_m]
  split
  · exact tracingOff_notin_koe env "options/print-tgid" e (by decide)
  · simp

/-- The clock-selection step never touches `tracing_on`. -/
theorem tracingOff_notin_clock (env : KernelEnv) (e : Bool) :
    tracingOffEvent ∉ (set_global_clock_enable_m env e).1 := by
  simp only [set_global_clock_enable_m]
  split <;> (try split) <;>
    first
      | simp
      | exact tracingOff_notin_tws env "trace_clock" _ (by decide)

/-- The whole Configuring stage never emits the master-switch-off
event. -/
theorem tracingOff_notin_setup (env : KernelEnv) (config : Config) :
    tracingOffEvent ∉ (setup_trace_m env config).1 := by
  simp only [setup_trace_m, List.mem_append]
  push_neg
  refine ⟨⟨⟨⟨⟨⟨?_, ?_⟩, ?_⟩, ?_⟩, ?_⟩, ?_⟩, ?_⟩
  · exact tracingOff_notin_koe env "options/overwrite" config.overwrite (by decide)
  · exact tracingOff_notin_tws env "buffer_size_kb" (toString config.buflen) (by decide)
  · exact tracingOff_notin_clock env true
  · exact tracingOff_notin_funcs env config.funcs
  · split
    · exact tracingOff_notin_tgid env true
    · simp
  · exact tracingOff_notin_koe env "options/record-cmd" true (by decide)
  · exact tracingOff_notin_disable env config

/-- Teardown (`cleanup_trace`) never emits the master-switch-off event:
it resets options but does not write `tracing_on`. -/
theorem tracingOff_notin_cleanup (env : KernelEnv) (config : Config) :
    tracingOffEvent ∉ cleanup_trace_m env config := by
  simp only [cleanup_trace_m, List.mem_append]
  push_neg
  refine ⟨⟨⟨⟨⟨⟨?_, ?_⟩, ?_⟩, ?_⟩, ?_⟩, ?_⟩, ?_⟩
  · exact tracingOff_notin_disable env config
  · exact tracingOff_notin_koe env "options/record-cmd" false (by decide)
  · exact tracingOff_notin_koe env "options/overwrite" true (by decide)
  · exact tracingOff_notin_tws env "buffer_size_kb" (toString 1) (by decide)
  · exact tracingOff_notin_clock env false
  · exact tracingOff_notin_tgid env false
  · exact tracingOff_notin_funcs env ""

/-- The capture window never emits the master-switch-off event. -/
theorem tracingOff_notin_begin (env : KernelEnv) (config : Config) (fl : PhaseFlags)
    (ret : Bool) : tracingOffEvent ∉ (main_begin_phase env config fl ret).1 := by
  simp only [main_begin_phase]
  split
  · simp only [clear_trace_m, truncate_file_m, List.mem_append]
    push_neg
    refine ⟨⟨⟨?_, by simp [tracingOffEvent]⟩, ?_⟩, ?_⟩
    · split <;> simp [tracingOffEvent]
    · exact tracingOff_notin_tws env "trace_marker"
        "trace_event_clock_sync: parent_ts=9000000\n" (by decide)
    · split <;> simp [tracingOffEvent]
  · simp

/-- The dump step never emits the master-switch-off event. -/
theorem tracingOff_notin_dump (env : KernelEnv) (fl : PhaseFlags) (ret : Bool) :
    tracingOffEvent ∉ main_dump_phase env fl ret := by
  simp only [main_dump_phase]
  split
  · simp only [clear_trace_m, truncate_file_m, List.mem_append]
    push_neg
    constructor
    · split <;> simp [tracingOffEvent]
    · simp [tracingOffEvent]
  · split <;> simp [tracingOffEvent]

/-- Option toggles never invoke the capture pipeline. -/
theorem printTrace_notin_koe (env : KernelEnv) (p : String) (e : Bool) :
    Event.printTrace ∉ (set_kernel_option_enable_m env p e).1 := by
  simp [set_kernel_option_enable_m, trace_write_string_m, write_string_m]

/-- Raw string writes never invoke the capture pipeline. -/
theorem printTrace_notin_tws (env : KernelEnv) (p c : String) :
    Event.printTrace ∉ (trace_write_string_m env p c).1 := by
  simp [trace_write_string_m, write_string_m]

/-- The tracer-selection step never invokes the capture pipeline. -/
theorem printTrace_notin_funcs (env : KernelEnv) (funcs : String) :
    Event.printTrace ∉ (set_kernel_trace_funcs_m env funcs).1 := by
  simp only [set_kernel_trace_funcs_m]
  split
  · split
    · exact printTrace_notin_tws env _ _
    · simp
  · simp only [truncate_file_m, List.mem_append, List.mem_singleton]
    push_neg
    exact ⟨⟨⟨⟨⟨printTrace_notin_tws env _ _, printTrace_notin_koe env _ _⟩,
      printTrace_notin_koe env _ _⟩, printTrace_notin_koe env _ _⟩,
      printTrace_notin_koe env _ _⟩, by simp⟩

/-- The event-toggling step never invokes the capture pipeline. -/
theorem printTrace_notin_disable (env : KernelEnv) (config : Config) :
    Event.printTrace ∉ (disable_kernel_trace_events_m env config).1 := by
  simp only [disable_kernel_trace_events_m, List.mem_append]
  push_neg
  refine ⟨⟨⟨⟨⟨?_, ?_⟩, ?_⟩, ?_⟩, ?_⟩, ?_⟩ <;>
    split <;> first | exact printTrace_notin_koe env _ _ | simp

/-- The tgid toggle never invokes the capture pipeline. -/
theorem printTrace_notin_tgid (env : KernelEnv) (e : Bool) :
    Event.printTrace ∉ (set_print_tgid_enable_if_present_m env e).1 := by
  simp only [set_print_tgid_enable_if_present_m]
  split
  · exact printTrace_notin_koe env _ e
  · simp

/-- The clock-selection step never invokes the capture pipeline. -/
theorem printTrace_notin_clock (env : KernelEnv) (e : Bool) :
    Event.printTrace ∉ (set_global_clock_enable_m env e).1 := by
  simp only [set_global_clock_enable_m]
  split <;> (try split) <;>
    first
      | simp
      | exact printTrace_notin_tws env _ _

/-- The Configuring stage never invokes the capture pipeline. -/
theorem printTrace_notin_setup (env : KernelEnv) (config : Config) :
    Event.printTrace ∉ (setup_trace_m env config).1 := by
  simp only [setup_trace_m, List.mem_append]
  push_neg
  refine ⟨⟨⟨⟨⟨⟨?_, ?_⟩, ?_⟩, ?_⟩, ?_⟩, ?_⟩, ?_⟩
  · exact printTrace_notin_koe env _ _
  · exact printTrace_notin_tws env _ _
  · exact printTrace_notin_clock env true
  · exact printTrace_notin_funcs env config.funcs
  · split
    · exact printTrace_notin_tgid env true
    · simp
  · exact printTrace_notin_koe env _ _
  · exact printTrace_notin_disable env config

/-- Teardown never invokes the capture pipeline. -/
theorem printTrace_notin_cleanup (env : KernelEnv) (config : Config) :
    Event.printTrace ∉ cleanup_trace_m env config := by
  simp only [cleanup_trace_m, List.mem_append]
  push_neg
  refine ⟨⟨⟨⟨⟨⟨?_, ?_⟩, ?_⟩, ?_⟩, ?_⟩, ?_⟩, ?_⟩
  · exact printTrace_notin_disable env config
  · exact printTrace_notin_koe env _ _
  · exact printTrace_notin_koe env _ _
  · exact printTrace_notin_tws env _ _
  · exact printTrace_notin_clock env false
  · exact printTrace_notin_tgid env false
  · exact printTrace_notin_funcs env ""

/-- The capture window never invokes the capture pipeline. -/
theorem printTrace_notin_begin (env : KernelEnv) (config : Config) (fl : PhaseFlags)
    (ret : Bool) : Event.printTrace ∉ (main_begin_phase env config fl ret).1 := by
  simp only [main_begin_phase, clear_trace_m, truncate_file_m, trace_write_string_m,
    write_string_m]
  split_ifs <;> simp

/-- With the abort flag set, the dump step never invokes the capture
pipeline. -/
theorem printTrace_notin_dump_aborted (env : KernelEnv) (fl : PhaseFlags) (ret : Bool)
    (ha : env.aborted = true) : Event.printTrace ∉ main_dump_phase env fl ret := by
  simp only [main_dump_phase, clear_trace_m, truncate_file_m, ha]
  split_ifs <;> simp_all

/-- Enabling the master switch writes `"1"`, not the off event. -/
theorem tracingOff_notin_ton_true (env : KernelEnv) :
    tracingOffEvent ∉ (set_tracing_enabled_m env true).1 := by
  simp only [set_tracing_enabled_m, set_kernel_option_enable_m, trace_write_string_m,
    write_string_m, List.mem_singleton, tracingOffEvent, if_true]
  intro h
  exact absurd ((Event.write.injEq ..).mp h).2 (by decide)

/-- On a non-replay, non-listing invocation whose derived `stop` flag is
clear, no event of the whole run writes `"0"` to `tracing_on`. -/
theorem tracingOff_notin_main (env : KernelEnv) (cfg : Config)
    (hs : cfg.show_category = false) (hu : cfg.uncompress_file = "")
    (hstop : (derive_phase_flags cfg).stop = false) :
    tracingOffEvent ∉ (main_m env cfg).events := by
  unfold main_m
  rw [if_neg (by simp [hs]), if_neg (by simp [mainConfig, hu])]
  simp only [List.mem_append, hstop, if_false, Bool.false_eq_true]
  push_neg
  refine ⟨⟨⟨⟨⟨⟨?_, ?_⟩, ?_⟩, ?_⟩, ?_⟩, ?_⟩, ?_⟩
  · split <;> simp [tracingOffEvent]
  · exact tracingOff_notin_setup env (mainConfig cfg)
  · exact tracingOff_notin_ton_true env
  · exact tracingOff_notin_begin env (mainConfig cfg) (derive_phase_flags cfg)
      (main_ret0 env cfg)
  · simp
  · exact tracingOff_notin_dump env (derive_phase_flags cfg) (ret_at_dump env cfg)
  · simp

/-- Environment in which every kernel operation succeeds, the clock mode
probe reports no match, no abort is pending and both pipelines report
success. -/
def envAllOk : KernelEnv where
  writeOk := fun _ _ => true
  fileExists := fun _ => true
  fileWritable := fun _ => true
  truncateOk := fun _ => true
  clockIsMode := fun _ => false
  aborted := false
  printRet := 0
  uncompressRet := 0

/-- Claim C1 counterexample: a `SessionConfig` with all three async
flags clear but the STREAM flag set derives `dump = false`, while the
table row for all-async-false demands `dump = true` (main.rs lines
661-664 force `dump = false` whenever `config.stream` holds). -/
theorem c1_counterexample :
    ({ configDefault with stream := true } : Config).begin_async = false ∧
    ({ configDefault with stream := true } : Config).stop_async = false ∧
    ({ configDefault with stream := true } : Config).dump_async = false ∧
    (derive_phase_flags { configDefault with stream := true }).dump = false := by
  decide

/-- Claim C1 (amended): for every `SessionConfig` whose STREAM flag is
clear, the phase flags follow the §4.2 table exactly: all async flags
false gives begin/stop/dump all true with `overwrite` unchanged;
`begin_async` alone gives begin only and forces `overwrite = true`;
`stop_async` alone gives stop and dump; `dump_async` alone gives dump
only; `overwrite` is unchanged except under `begin_async`.  (When STREAM
is set, `dump` is additionally forced to `false`.) -/
theorem c1_phase_flag_table (cfg : Config) (hstream : cfg.stream = false) :
    (cfg.begin_async = false → cfg.stop_async = false → cfg.dump_async = false →
      (derive_phase_flags cfg).begin = true ∧ (derive_phase_flags cfg).stop = true ∧
      (derive_phase_flags cfg).dump = true ∧
      (derive_phase_flags cfg).overwrite = cfg.overwrite) ∧
    (cfg.begin_async = true → cfg.stop_async = false → cfg.dump_async = false →
      (derive_phase_flags cfg).begin = true ∧ (derive_phase_flags cfg).stop = false ∧
      (derive_phase_flags cfg).dump = false ∧ (derive_phase_flags cfg).overwrite = true) ∧
    (cfg.begin_async = false → cfg.stop_async = true → cfg.dump_async = false →
      (derive_phase_flags cfg).begin = false ∧ (derive_phase_flags cfg).stop = true ∧
      (derive_phase_flags cfg).dump = true ∧
      (derive_phase_flags cfg).overwrite = cfg.overwrite) ∧
    (cfg.begin_async = false → cfg.stop_async = false → cfg.dump_async = true →
      (derive_phase_flags cfg).begin = false ∧ (derive_phase_flags cfg).stop = false ∧
      (derive_phase_flags cfg).dump = true ∧
      (derive_phase_flags cfg).overwrite = cfg.overwrite) := by
  refine ⟨?_, ?_, ?_, ?_⟩ <;> intro h1 h2 h3 <;>
    simp [derive_phase_flags, h1, h2, h3, hstream]

/-- Claim C1 witness: the dump-only row evaluated on a concrete
configuration. -/
theorem c1_phase_flag_table_witness :
    (derive_phase_flags { configDefault with dump_async := true }).begin = false ∧
    (derive_phase_flags { configDefault with dump_async := true }).stop = false ∧
    (derive_phase_flags { configDefault with dump_async := true }).dump = true ∧
    (derive_phase_flags { configDefault with dump_async := true }).overwrite =
      ({ configDefault with dump_async := true } : Config).overwrite :=
  (c1_phase_flag_table { configDefault with dump_async := true } (by decide)).2.2.2
    (by decide) (by decide) (by decide)

/-- Claim C9: when both `stop_async` and `dump_async` are set (and
neither `begin_async` nor STREAM), the `dump_async` branch runs after
the `stop_async` branch (main.rs lines 647-655), so its `stop = false`
assignment wins: the derived flags are begin=false, stop=false,
dump=true, and such an invocation never writes `"0"` to the `tracing_on`
master switch. -/
theorem c9_stop_dump_async_precedence (env : KernelEnv) (cfg : Config)
    (h1 : cfg.stop_async = true) (h2 : cfg.dump_async = true)
    (h3 : cfg.begin_async = false) (h4 : cfg.stream = false) :
    (derive_phase_flags cfg).begin = false ∧
    (derive_phase_flags cfg).stop = false ∧
    (derive_phase_flags cfg).dump = true ∧
    (cfg.show_category = false → cfg.uncompress_file = "" →
      Event.write (strcat_for_file_path "tracing_on") "0" ∉ (main_m env cfg).events) := by
  refine ⟨by simp [derive_phase_flags, h1, h2, h3, h4],
          by simp [derive_phase_flags, h1, h2, h3, h4],
          by simp [derive_phase_flags, h1, h2, h3, h4], ?_⟩
  intro hs hu
  have hstop : (derive_phase_flags cfg).stop = false := by simp [derive_phase_flags, h2]
  exact tracingOff_notin_main env cfg hs hu hstop

/-- Claim C9 witness: the combined stop+dump async invocation on a
concrete configuration and all-success environment. -/
theorem c9_stop_dump_async_precedence_witness :
    (derive_phase_flags
      { configDefault with stop_async := true, dump_async := true }).begin = false ∧
    (derive_phase_flags
      { configDefault with stop_async := true, dump_async := true }).stop = false ∧
    (derive_phase_flags
      { configDefault with stop_async := true, dump_async := true }).dump = true ∧
    (({ configDefault with stop_async := true, dump_async := true } : Config).show_category
        = false →
      ({ configDefault with stop_async := true, dump_async := true } : Config).uncompress_file
        = "" →
      Event.write (strcat_for_file_path "tracing_on") "0" ∉
        (main_m envAllOk
          { configDefault with stop_async := true, dump_async := true }).events) :=
  c9_stop_dump_async_precedence envAllOk
    { configDefault with stop_async := true, dump_async := true }
    (by decide) (by decide) (by decide) (by decide)

/-- Claim C10: every invocation that takes neither the replay path nor
the show-category path runs `setup_trace` and `set_tracing_enabled(true)`
unconditionally — the run's events start with the optional sleep, the
whole Configuring stage, then the `tracing_on := "1"` write — and a
dump-only (`dump_async`) invocation, whose derived `stop` flag is false,
never writes `"0"` to `tracing_on`, leaving the master switch enabled at
exit. -/
theorem c10_setup_and_enable_unconditional (env : KernelEnv) (cfg : Config)
    (hs : cfg.show_category = false) (hu : cfg.uncompress_file = "") :
    (∃ rest, (main_m env cfg).events =
      (if (mainConfig cfg).sleepsec > 0 then
        [Event.sleepMs ((mainConfig cfg).sleepsec * 1000)] else []) ++
      (setup_trace_m env (mainConfig cfg)).1 ++
      (Event.write (strcat_for_file_path "tracing_on") "1" :: rest)) ∧
    (cfg.dump_async = true →
      Event.write (strcat_for_file_path "tracing_on") "0" ∉ (main_m env cfg).events) := by
  constructor
  · refine ⟨(main_begin_phase env (mainConfig cfg) (derive_phase_flags cfg)
        (main_ret0 env cfg)).1 ++
      ((if (derive_phase_flags cfg).stop then (set_tracing_enabled_m env false).1 else []) ++
       (main_dump_phase env (derive_phase_flags cfg) (ret_at_dump env cfg) ++
        (if (derive_phase_flags cfg).stop then cleanup_trace_m env (mainConfig cfg)
         else []))), ?_⟩
    unfold main_m
    rw [if_neg (by simp [hs]), if_neg (by simp [mainConfig, hu])]
    simp [set_tracing_enabled_m, set_kernel_option_enable_m, trace_write_string_m,
      write_string_m, List.append_assoc]
  · intro hd
    exact tracingOff_notin_main env cfg hs hu (by simp [derive_phase_flags, hd])

/-- Claim C10 witness: a concrete dump-only invocation on the
all-success environment. -/
theorem c10_setup_and_enable_unconditional_witness :
    (∃ rest, (main_m envAllOk { configDefault with dump_async := true }).events =
      (if (mainConfig { configDefault with dump_async := true }).sleepsec > 0 then
        [Event.sleepMs ((mainConfig { configDefault with dump_async := true }).sleepsec * 1000)]
       else []) ++
      (setup_trace_m envAllOk (mainConfig { configDefault with dump_async := true })).1 ++
      (Event.write (strcat_for_file_path "tracing_on") "1" :: rest)) ∧
    (({ configDefault with dump_async := true } : Config).dump_async = true →
      Event.write (strcat_for_file_path "tracing_on") "0" ∉
        (main_m envAllOk { configDefault with dump_async := true }).events) :=
  c10_setup_and_enable_unconditional envAllOk { configDefault with dump_async := true }
    (by decide) (by decide)

/-- Claim C5: the option write fails (returns `false`) exactly when the
open fails or the single `write`'s byte count differs from the UTF-8
length of the input; it succeeds exactly when the full string was
written, with no partial-write retry (one write attempt only, main.rs
lines 352-372). -/
theorem c5_write_string_result (openOk : Bool) (bytesWritten : Nat) (s : String) :
    write_string openOk bytesWritten s = true ↔
      openOk = true ∧ bytesWritten = s.utf8ByteSize := by
  cases openOk <;> by_cases hn : bytesWritten = s.utf8ByteSize <;> simp [write_string, hn]

/-- Claim C6 (code bug, main.rs lines 170-200): over the content
`"1024 [global] local\n"` the reader panics — the `]` position is taken
relative to the suffix after `[` but used (minus one) as an absolute
slice end, giving the inverted slice `[6..5]` — instead of yielding
`"global"`.  No-bracket and empty contents do return `false` (unknown),
and a well-placed bracket pair returns `true` even when the sliced token
does not match, via the fall-through at line 199. -/
theorem c6_bracketed_reader_bug :
    is_traceclock_mode_core "1024 [global] local\n".toList "global".toList = none ∧
    is_traceclock_mode_core "1024\n".toList "global".toList = some false ∧
    is_traceclock_mode_core "".toList "global".toList = some false ∧
    is_traceclock_mode_core "[global] local\n".toList "nomatch".toList = some true := by
  decide

/-- Environment in which every kernel write and truncation fails, the
abort flag is set, and probes report files present/writable. -/
def envAllFail : KernelEnv where
  writeOk := fun _ _ => false
  fileExists := fun _ => true
  fileWritable := fun _ => true
  truncateOk := fun _ => false
  clockIsMode := fun _ => false
  aborted := true
  printRet := 0
  uncompressRet := 0

/-- Claim C3 counterexample: a run with the abort flag set and
`dump = true` in which the Configuring stage failed (`ret` false at the
dump step): the dump step is skipped entirely — standard output is never
flushed and the trace buffer is never cleared, contrary to the claim
that flush and clear still happen on every aborted run with
`dump = true`. -/
theorem c3_counterexample :
    envAllFail.aborted = true ∧
    (derive_phase_flags configDefault).dump = true ∧
    Event.printTrace ∉ (main_m envAllFail configDefault).events ∧
    Event.flush ∉ (main_m envAllFail configDefault).events ∧
    Event.truncate (strcat_for_file_path "trace\x00") ∉
      (main_m envAllFail configDefault).events := by
  decide

/-- Claim C3 (amended): on a non-replay, non-listing run with the abort
flag set, `dump = true`, and the accumulated `ret` still true at the
dump step, the dump phase is exactly flush-then-clear —
`print_trace` is skipped while standard output is flushed and the trace
buffer cleared — the whole run never invokes `print_trace`; and whenever
`stop = true`, `cleanup_trace` runs in full as the final phase,
independent of the dump outcome and of the abort flag.  (When the
Configuring stage failed, `ret` is false and the dump phase performs
neither the flush nor the clear, see the counterexample.) -/
theorem c3_abort_skips_dump (env : KernelEnv) (cfg : Config)
    (hs : cfg.show_category = false) (hu : cfg.uncompress_file = "")
    (ha : env.aborted = true)
    (hd : (derive_phase_flags cfg).dump = true)
    (hr : ret_at_dump env cfg = true) :
    main_dump_phase env (derive_phase_flags cfg) (ret_at_dump env cfg) =
      [Event.flush, Event.truncate (strcat_for_file_path "trace\x00")] ∧
    Event.printTrace ∉ (main_m env cfg).events ∧
    ((derive_phase_flags cfg).stop = true →
      (main_m env cfg).events =
        ((if (mainConfig cfg).sleepsec > 0 then
            [Event.sleepMs ((mainConfig cfg).sleepsec * 1000)] else []) ++
          (setup_trace_m env (mainConfig cfg)).1 ++
          (set_tracing_enabled_m env true).1 ++
          (main_begin_phase env (mainConfig cfg) (derive_phase_flags cfg)
            (main_ret0 env cfg)).1 ++
          (set_tracing_enabled_m env false).1 ++
          main_dump_phase env (derive_phase_flags cfg) (ret_at_dump env cfg)) ++
          cleanup_trace_m env (mainConfig cfg)) := by
  refine ⟨?_, ?_, ?_⟩
  · simp [main_dump_phase, hr, hd, ha, clear_trace_m, truncate_file_m]
  · unfold main_m
    rw [if_neg (by simp [hs]), if_neg (by simp [mainConfig, hu])]
    simp only [List.mem_append]
    push_neg
    refine ⟨⟨⟨⟨⟨⟨?_, ?_⟩, ?_⟩, ?_⟩, ?_⟩, ?_⟩, ?_⟩
    · split <;> simp
    · exact printTrace_notin_setup env (mainConfig cfg)
    · simp [set_tracing_enabled_m, set_kernel_option_enable_m, trace_write_string_m,
        write_string_m]
    · exact printTrace_notin_begin env (mainConfig cfg) _ _
    · split
      · simp [set_tracing_enabled_m, set_kernel_option_enable_m, trace_write_string_m,
          write_string_m]
      · simp
    · exact printTrace_notin_dump_aborted env _ _ ha
    · split
      · exact printTrace_notin_cleanup env (mainConfig cfg)
      · simp
  · intro hstop
    unfold main_m
    rw [if_neg (by simp [hs]), if_neg (by simp [mainConfig, hu])]
    simp [hstop, List.append_assoc]

/-- Claim C3 witness: a concrete aborted synchronous run in which every
kernel operation succeeds. -/
theorem c3_abort_skips_dump_witness :
    main_dump_phase { envAllOk with aborted := true }
        (derive_phase_flags configDefault)
        (ret_at_dump { envAllOk with aborted := true } configDefault) =
      [Event.flush, Event.truncate (strcat_for_file_path "trace\x00")] ∧
    Event.printTrace ∉ (main_m { envAllOk with aborted := true } configDefault).events ∧
    ((derive_phase_flags configDefault).stop = true →
      (main_m { envAllOk with aborted := true } configDefault).events =
        ((if (mainConfig configDefault).sleepsec > 0 then
            [Event.sleepMs ((mainConfig configDefault).sleepsec * 1000)] else []) ++
          (setup_trace_m { envAllOk with aborted := true } (mainConfig configDefault)).1 ++
          (set_tracing_enabled_m { envAllOk with aborted := true } true).1 ++
          (main_begin_phase { envAllOk with aborted := true } (mainConfig configDefault)
            (derive_phase_flags configDefault)
            (main_ret0 { envAllOk with aborted := true } configDefault)).1 ++
          (set_tracing_enabled_m { envAllOk with aborted := true } false).1 ++
          main_dump_phase { envAllOk with aborted := true }
            (derive_phase_flags configDefault)
            (ret_at_dump { envAllOk with aborted := true } configDefault)) ++
          cleanup_trace_m { envAllOk with aborted := true } (mainConfig configDefault)) :=
  c3_abort_skips_dump { envAllOk with aborted := true } configDefault
    (by decide) (by decide) (by decide) (by decide) (by decide)

/-- Capture environment whose trace-file `open` fails. -/
def captureOpenFail : CaptureEnv where
  openOk := false
  initRet := Z_OK
  allocPibufOk := true
  allocPobufOk := true
  writeRet := fun _ n => n

/-- Claim C4 counterexample: a capture run whose output pipeline fails
(`print_trace` returns `-1`, as on a failed trace-file open) still makes
`main` fall off the end with exit code 0 — `print_trace`'s result is
discarded (main.rs line 707) and never reaches the process exit code. -/
theorem c4_counterexample :
    (print_trace_m true idCodec 2 captureOpenFail 10 ([] : List Nat)).ret = -1 ∧
    ({ envAllOk with printRet := -1 } : KernelEnv).printRet = -1 ∧
    Event.printTrace ∈ (main_m { envAllOk with printRet := -1 }
      { configDefault with compress := true }).events ∧
    (main_m { envAllOk with printRet := -1 }
      { configDefault with compress := true }).exitArg = 0 := by
  decide

/-- Claim C4 (amended): the exit argument is 0 on every capture-path run
regardless of the pipeline outcome (`print_trace`'s result is
discarded); on the replay path it is `uncompress_trace`'s return value,
which is `-1` exactly on an open or codec-init failure (on success it is
the pipeline's final write count or codec status, not 0). -/
theorem c4_exit_codes :
    (∀ (env : KernelEnv) (cfg : Config), cfg.show_category = false →
      cfg.uncompress_file = "" → (main_m env cfg).exitArg = 0) ∧
    (∀ (env : KernelEnv) (cfg : Config), cfg.show_category = false →
      cfg.uncompress_file ≠ "" → (main_m env cfg).exitArg = env.uncompressRet) ∧
    (∀ (σ : Type) (c : CodecSpec σ) (buflen : Nat) (env : ReplayEnv) (fuel : Nat)
      (bytes : List Nat), env.openOk = false →
      (uncompress_trace_m c buflen env fuel bytes).ret = -1) ∧
    (∀ (σ : Type) (c : CodecSpec σ) (buflen : Nat) (env : ReplayEnv) (fuel : Nat)
      (bytes : List Nat), env.initRet ≠ Z_OK →
      (uncompress_trace_m c buflen env fuel bytes).ret = -1) := by
  refine ⟨?_, ?_, ?_, ?_⟩
  · intro env cfg hs hu
    unfold main_m
    rw [if_neg (by simp [hs]), if_neg (by simp [mainConfig, hu])]
  · intro env cfg hs hu
    unfold main_m
    rw [if_neg (by simp [hs]), if_pos (by simp [mainConfig, hu])]
  · intro σ c buflen env fuel bytes ho
    simp [uncompress_trace_m, ho]
  · intro σ c buflen env fuel bytes hi
    by_cases ho : env.openOk <;> simp [uncompress_trace_m, ho, hi]

/-- Replay environment whose file `open` fails. -/
def replayOpenFail : ReplayEnv where
  openOk := false
  initRet := Z_OK
  allocPibufOk := true
  allocPobufOk := true
  writeRet := fun _ n => n

/-- Replay environment whose `inflateInit_` fails. -/
def replayInitFail : ReplayEnv where
  openOk := true
  initRet := -2
  allocPibufOk := true
  allocPobufOk := true
  writeRet := fun _ n => n

/-- Claim C4 witness: the exit characterization evaluated on concrete
runs. -/
theorem c4_exit_codes_witness :
    (main_m envAllOk configDefault).exitArg = 0 ∧
    (main_m envAllOk { configDefault with uncompress_file := "t.z" }).exitArg =
      envAllOk.uncompressRet ∧
    (uncompress_trace_m idCodec 2 replayOpenFail 10 ([] : List Nat)).ret = -1 ∧
    (uncompress_trace_m idCodec 2 replayInitFail 10 ([] : List Nat)).ret = -1 :=
  ⟨c4_exit_codes.1 envAllOk configDefault (by decide) (by decide),
   c4_exit_codes.2.1 envAllOk { configDefault with uncompress_file := "t.z" }
     (by decide) (by decide),
   c4_exit_codes.2.2.1 _ idCodec 2 replayOpenFail 10 [] (by decide),
   c4_exit_codes.2.2.2 _ idCodec 2 replayInitFail 10 [] (by decide)⟩

/-- Probe environment of a real kernel: every event-enable file is
writable except the misspelled `events/workqueuq/enable`, which does not
exist. -/
def envRealKernel : KernelEnv :=
  { envAllOk with
    fileWritable := fun p => decide (p ≠ strcat_for_file_path "events/workqueuq/enable") }

/-- Claim C8 (code bug, main.rs lines 293-295): the workqueue step
probes the misspelled path `events/workqueuq/enable` before writing
`events/workqueue/enable`, so on a kernel where the real workqueue
enable file is writable (and the misspelled one absent) the force-enable
write `"1"` never happens — contrary to the claim and to the source's
own comment ("workqueue for thread name").  The three power events are
force-disabled (`"0"`) as claimed. -/
theorem c8_workqueue_typo :
    envRealKernel.fileWritable (strcat_for_file_path "events/workqueue/enable") = true ∧
    Event.write (strcat_for_file_path "events/workqueue/enable") "1" ∉
      (disable_kernel_trace_events_m envRealKernel configDefault).1 ∧
    Event.write (strcat_for_file_path "events/power/cpu_frequency/enable") "0" ∈
      (disable_kernel_trace_events_m envRealKernel configDefault).1 ∧
    Event.write (strcat_for_file_path "events/power/clock_set_rate/enable") "0" ∈
      (disable_kernel_trace_events_m envRealKernel configDefault).1 ∧
    Event.write (strcat_for_file_path "events/power/cpu_idle/enable") "0" ∈
      (disable_kernel_trace_events_m envRealKernel configDefault).1 := by
  decide

/-- Capture environment in which open, codec init, allocations and every
stdout write succeed in full. -/
def captureAllOk : CaptureEnv where
  openOk := true
  initRet := Z_OK
  allocPibufOk := true
  allocPobufOk := true
  writeRet := fun _ n => n

/-- Replay environment in which open, codec init, allocations and every
stdout write succeed in full. -/
def replayAllOk : ReplayEnv where
  openOk := true
  initRet := Z_OK
  allocPibufOk := true
  allocPobufOk := true
  writeRet := fun _ n => n

/-- Claim C2: the compress-then-replay round trip.  For lawful streaming
codecs (deflate modelled by `encode`, inflate by `decode`, inverses on
whole streams), any chunk size, and runs in which every stdout write
completes and both transfer loops exit normally with `Z_STREAM_END`,
feeding arbitrary source bytes through `print_trace`'s compressed mode
and its standard output through `uncompress_trace` reproduces the source
bytes exactly — for every input length, in particular 0, chunk-size ± 1
and multiples of the chunk size. -/
theorem c2_compress_replay_roundtrip {σD σI : Type}
    (D : CodecSpec σD) (I : CodecSpec σI) (encode decode : List Nat → List Nat)
    (buflen : Nat) (envC : CaptureEnv) (envR : ReplayEnv) (fuelC fuelR : Nat)
    (input : List Nat)
    (hD : CodecOK D encode) (hI : CodecOK I decode)
    (hinv : ∀ l, decode (encode l) = l)
    (hb : 0 < buflen)
    (hoC : envC.openOk = true) (hiC : envC.initRet = Z_OK)
    (hpC : envC.allocPibufOk = true) (hqC : envC.allocPobufOk = true)
    (hoR : envR.openOk = true) (hiR : envR.initRet = Z_OK)
    (hpR : envR.allocPibufOk = true) (hqR : envR.allocPobufOk = true)
    (hwC : ∀ i n, envC.writeRet i n = n) (hwR : ∀ i n, envR.writeRet i n = n)
    (hfinC : (print_trace_m true D buflen envC fuelC input).exit = LoopExit.finished)
    (hendC : (print_trace_m true D buflen envC fuelC input).code = Z_STREAM_END)
    (hfinR : (uncompress_trace_m I buflen envR fuelR
        (print_trace_m true D buflen envC fuelC input).stdout).exit = LoopExit.finished)
    (hendR : (uncompress_trace_m I buflen envR fuelR
        (print_trace_m true D buflen envC fuelC input).stdout).code = Z_STREAM_END) :
    (uncompress_trace_m I buflen envR fuelR
        (print_trace_m true D buflen envC fuelC input).stdout).stdout = input := by
  have hC := print_trace_m_run D buflen envC fuelC input hoC hiC hpC hqC
  have hfinC' : (pipeRun D buflen envC.writeRet fuelC input).exit = LoopExit.finished := by
    rw [hC] at hfinC; exact hfinC
  have hendC' : (pipeRun D buflen envC.writeRet fuelC input).code = Z_STREAM_END := by
    rw [hC] at hendC; exact hendC
  have hCstdout : (print_trace_m true D buflen envC fuelC input).stdout = encode input := by
    rw [hC]
    exact pipeRun_stdout hD hb hwC hfinC' hendC'
  have hR := uncompress_trace_m_run I buflen envR fuelR
    (print_trace_m true D buflen envC fuelC input).stdout hoR hiR hpR hqR
  have hfinR' : (pipeRun I buflen envR.writeRet fuelR
      (print_trace_m true D buflen envC fuelC input).stdout).exit = LoopExit.finished := by
    rw [hR] at hfinR; exact hfinR
  have hendR' : (pipeRun I buflen envR.writeRet fuelR
      (print_trace_m true D buflen envC fuelC input).stdout).code = Z_STREAM_END := by
    rw [hR] at hendR; exact hendR
  rw [hR]
  show (pipeRun I buflen envR.writeRet fuelR
    (print_trace_m true D buflen envC fuelC input).stdout).stdout = input
  rw [pipeRun_stdout hI hb hwR hfinR' hendR', hCstdout, hinv]

/-- Claim C2 witness: a concrete round trip with the identity codec,
chunk size 2 and the three-byte input, exercising a full chunk, a
partial trailing chunk and the finish transition. -/
theorem c2_compress_replay_roundtrip_witness :
    (uncompress_trace_m idCodec 2 replayAllOk 10
      (print_trace_m true idCodec 2 captureAllOk 10 [1, 2, 3]).stdout).stdout = [1, 2, 3] :=
  c2_compress_replay_roundtrip idCodec idCodec id id 2 captureAllOk replayAllOk 10 10
    [1, 2, 3] idCodec_ok idCodec_ok (fun _ => rfl) (by decide)
    rfl rfl rfl rfl rfl rfl rfl rfl (fun _ _ => rfl) (fun _ _ => rfl)
    (by decide) (by decide) (by decide) (by decide)

/-- Capture environment whose stdout writes always report one byte
written (a short write on every full-chunk write). -/
def captureShortWrite : CaptureEnv where
  openOk := true
  initRet := Z_OK
  allocPibufOk := true
  allocPobufOk := true
  writeRet := fun _ _ => 1

/-- Claim C7 counterexample: the short-write run's return value is the
write's own count (1 here), which a fully successful run also returns
(its trailing one-byte flush), so the result does not mark the short
write as a failure — there is no distinguished failure value, and `main`
discards the result anyway. -/
theorem c7_counterexample :
    (print_trace_m true idCodec 2 captureShortWrite 10 [1, 2, 3]).exit =
      LoopExit.shortWrite ∧
    (print_trace_m true idCodec 2 captureShortWrite 10 [1, 2, 3]).ret = 1 ∧
    (print_trace_m true idCodec 2 captureAllOk 10 [7, 7, 7]).exit = LoopExit.finished ∧
    (print_trace_m true idCodec 2 captureAllOk 10 [7, 7, 7]).code = Z_STREAM_END ∧
    (print_trace_m true idCodec 2 captureAllOk 10 [7, 7, 7]).stdout = [7, 7, 7] ∧
    (print_trace_m true idCodec 2 captureAllOk 10 [7, 7, 7]).ret = 1 := by
  decide

/-- Claim C7 (amended): in compressed mode (open, init and allocations
succeeded), a full output buffer is written as one whole chunk, and a
write returning fewer bytes than the chunk size terminates the transfer
loop immediately: the pipeline result is the break state's — its `ret`
is the short write's own return value (not a distinguished failure
code), no further bytes reach standard output, the trailing flush is
skipped — and the codec state and both chunk buffers are released
(`frees = allocs = 3`, `deflateEnd` ran, descriptor closed) before
returning. -/
theorem c7_short_write_behavior {σ : Type} (c : CodecSpec σ) (buflen : Nat)
    (env : CaptureEnv) (fuel : Nat) (input : List Nat) (st : LoopState σ)
    (ho : env.openOk = true) (hi : env.initRet = Z_OK)
    (hp : env.allocPibufOk = true) (hq : env.allocPobufOk = true)
    (hrun : transferLoop c buflen env.writeRet fuel
      { ret := 0, finish := false, fileRem := input, availIn := [], outBuf := [],
        stdout := [], cs := c.state0, wIdx := 0 } = (st, LoopExit.shortWrite)) :
    print_trace_m true c buflen env fuel input =
      { ret := st.ret, stdout := st.stdout, allocs := 3, frees := 3,
        codecEnded := true, fdClosed := true, code := st.ret,
        exit := LoopExit.shortWrite } := by
  rw [print_trace_m_run c buflen env fuel input ho hi hp hq, pipeRun_shortWrite hrun]

/-- Claim C7 witness: the short-write run on a concrete input, with the
break state written out. -/
theorem c7_short_write_behavior_witness :
    print_trace_m true idCodec 2 captureShortWrite 10 [1, 2, 3] =
      { ret := 1, stdout := [1], allocs := 3, frees := 3, codecEnded := true,
        fdClosed := true, code := 1, exit := LoopExit.shortWrite } :=
  c7_short_write_behavior idCodec 2 captureShortWrite 10 [1, 2, 3]
    { ret := 1, finish := false, fileRem := [], availIn := [3], outBuf := [],
      stdout := [1], cs := ([1, 2], [1, 2]), wIdx := 1 }
    rfl rfl rfl rfl (by decide)
